import Mathlib

/-!
Verification of the jwt-forward-auth service against its specification.

The Rust sources are shallowly embedded: every definition below is a direct
translation of a function of the repository (file and symbol named in its
doc comment).  HashMaps become association lists (their keys are unique in
the source because they come from deserialized YAML mappings), atomically
swapped cells become plain values threaded through pure functions, and the
HTTP / file-system side effects of a function become explicit parameters
describing the observed response or event.
-/

namespace JwtForwardAuth

/-! ## Association lists (embedding of `std::collections::HashMap`) -/

/-- Lookup in an association list keyed by strings (embeds `HashMap::get`). -/
def lookupAssoc {β : Type} : List (String × β) → String → Option β
  | [], _ => none
  | (k', v) :: rest, k => if k' = k then some v else lookupAssoc rest k

/-- `HashMap::insert`: replace the value stored under `k`, or add the pair.
The lists embedding HashMaps have pairwise distinct keys, so replacing the
first occurrence is the map's behaviour. -/
def assocInsert {β : Type} : List (String × β) → String → β → List (String × β)
  | [], k, v => [(k, v)]
  | (k', v') :: rest, k, v =>
    if k' = k then (k, v) :: rest else (k', v') :: assocInsert rest k v

/-- `HashMap::extend`: insert every pair of `b` into `a`, overwriting
existing keys (this is what `partial.map_claims.extend(..)` in
`src/validator_file/mod.rs` does). -/
def assocExtend {β : Type} (a b : List (String × β)) : List (String × β) :=
  b.foldl (fun acc kv => assocInsert acc kv.1 kv.2) a

/-- Helper lemmas about the association-list primitives. -/
theorem lookupAssoc_assocInsert {β : Type} (a : List (String × β)) (k k' : String) (v : β) :
    lookupAssoc (assocInsert a k v) k' =
      if k' = k then some v else lookupAssoc a k' := by
  induction a with
  | nil =>
    by_cases h : k' = k
    · subst h; simp [assocInsert, lookupAssoc]
    · rw [if_neg h]
      simp [assocInsert, lookupAssoc, Ne.symm h]
  | cons hd tl ih =>
    obtain ⟨k₀, v₀⟩ := hd
    by_cases h0 : k₀ = k
    · subst h0
      by_cases h : k' = k₀
      · subst h; simp [assocInsert, lookupAssoc]
      · rw [if_neg h]
        simp [assocInsert, lookupAssoc, Ne.symm h]
    · have hrw : assocInsert ((k₀, v₀) :: tl) k v = (k₀, v₀) :: assocInsert tl k v := by
        simp [assocInsert, h0]
      rw [hrw]
      by_cases h : k' = k
      · subst h
        have hne : ¬k₀ = k' := h0
        simp [lookupAssoc, hne, ih]
      · by_cases h2 : k₀ = k'
        · simp [lookupAssoc, h2, ih, h]
        · simp [lookupAssoc, h2, ih, h]

theorem lookupAssoc_mem_keys {β : Type} (l : List (String × β)) (k : String) (v : β)
    (h : lookupAssoc l k = some v) : k ∈ l.map Prod.fst := by
  induction l with
  | nil => simp [lookupAssoc] at h
  | cons hd tl ih =>
    obtain ⟨k₀, v₀⟩ := hd
    by_cases h0 : k₀ = k
    · subst h0; simp
    · simp only [lookupAssoc, if_neg h0] at h
      simp [ih h]

theorem lookupAssoc_assocExtend {β : Type} (a b : List (String × β))
    (hb : (b.map Prod.fst).Nodup) (k : String) :
    lookupAssoc (assocExtend a b) k =
      (lookupAssoc b k).elim (lookupAssoc a k) some := by
  induction b generalizing a with
  | nil => simp [assocExtend, lookupAssoc]
  | cons hd tl ih =>
    obtain ⟨k₀, v₀⟩ := hd
    simp only [List.map_cons, List.nodup_cons] at hb
    have step : assocExtend a ((k₀, v₀) :: tl) = assocExtend (assocInsert a k₀ v₀) tl := rfl
    rw [step, ih _ hb.2]
    by_cases h0 : k₀ = k
    · subst h0
      cases htl : lookupAssoc tl k₀ with
      | none => simp [lookupAssoc, lookupAssoc_assocInsert]
      | some v =>
        exact absurd (lookupAssoc_mem_keys tl k₀ v htl) hb.1
    · cases htl : lookupAssoc tl k with
      | none =>
        simp [lookupAssoc, h0, htl, lookupAssoc_assocInsert, Ne.symm h0]
      | some v => simp [lookupAssoc, h0, htl]

/-! ## `src/utils/header_val.rs` -/

/-- `is_valid` of `src/utils/header_val.rs`: a byte may appear in an HTTP
header value iff it is `>= 32` and `!= 127`, or is the tab `0x09`. -/
def isValidHVByte (b : Nat) : Bool :=
  (32 ≤ b && b ≠ 127) || b = 9

/-- `header_val_lossy` of `src/utils/header_val.rs`: keep valid bytes,
replace every other byte with `?` (byte 63). -/
def headerValLossy (l : List Nat) : List Nat :=
  l.map (fun b => if isValidHVByte b then b else 63)

/-- C7: `header_val_lossy` preserves the input length, copies every valid
field-vchar/tab byte through unchanged, replaces every other byte with `?`,
and every byte of its output is a valid field-vchar or tab. -/
theorem C7_header_val_lossy_spec (l : List Nat) :
    (headerValLossy l).length = l.length ∧
    (∀ i : Nat, (headerValLossy l)[i]? =
      (l[i]?).map (fun b => if isValidHVByte b then b else 63)) ∧
    (headerValLossy l).all isValidHVByte = true := by
  refine ⟨List.length_map _ _, fun i => ?_, ?_⟩
  · simp [headerValLossy, List.getElem?_map]
  · simp only [headerValLossy, List.all_eq_true]
    intro b hb
    rcases List.mem_map.mp hb with ⟨a, _, rfl⟩
    by_cases h : isValidHVByte a
    · rw [if_pos h]; exact h
    · rw [if_neg h]; decide

/-! ## `src/validator_file/file.rs` — the deserialized configuration file -/

/-- `RequiredClaim` of `src/validator_file/file.rs` (the untagged serde
form found in the YAML document). -/
inductive FileRequiredClaim where
  | Complex (name : String) (value : Option String)
  | ComplexMultiple (name : String) (values : List String)
  | Simple (name : String)
deriving DecidableEq, Repr

/-- `PartialJWTValidator` of `src/validator_file/file.rs`. -/
structure PartialJWTValidator where
  template : Option String
  authority : Option String
  header : Option String
  header_prefix : Option String
  required_claims : List FileRequiredClaim
  map_claims : List (String × String)
deriving DecidableEq, Repr

/-- `JWTAuthority` of `src/validator_file/file.rs` (algorithms kept as
plain strings; only the field layout matters to the claims below). -/
structure JWTAuthority where
  jwks_url : String
  approved_algorithms : List String
  leeway_seconds : Option Nat
  check_expiration : Option Bool
  check_not_before : Option Bool
  update_interval : Option Nat
deriving DecidableEq, Repr

/-- `ConfigFile` of `src/validator_file/file.rs`.  The serde maps are
association lists with pairwise distinct keys. -/
structure ConfigFile where
  authorities : List (String × JWTAuthority)
  validator_templates : List (String × PartialJWTValidator)
  validators : List (String × PartialJWTValidator)
deriving DecidableEq, Repr

/-! ## `src/validator_file/mod.rs` — resolved configuration -/

/-- `RequiredClaimValue` of `src/validator_file/mod.rs`. -/
inductive RequiredClaimValue where
  | None
  | Single (s : String)
  | Multiple (vs : List String)
deriving DecidableEq, Repr

/-- `RequiredClaimValue::matches` of `src/validator_file/mod.rs`. -/
def RequiredClaimValue.matches : RequiredClaimValue → String → Bool
  | .None, _ => true
  | .Single single, value => single = value
  | .Multiple multiple, value => multiple.any (fun v => v = value)

/-- `RequiredClaim` of `src/validator_file/mod.rs` (the resolved form). -/
structure RequiredClaim where
  name : String
  value : RequiredClaimValue
deriving DecidableEq, Repr

/-- `ValidationFileError` of `src/validator_file/error.rs` (the payloads of
the IO and serde variants are irrelevant here). -/
inductive ValidationFileError where
  | IoError
  | SerdeError
  | IsMissingAuthority (validator : String)
  | IsMissingHeader (validator : String)
  | MissingAuthority (validator : String) (authority : String)
  | MissingTemplate (validator : String) (template : String)
  | CircularTemplate (template : String)
  | InvalidHeaderName (validator : String) (claim : String) (header : String)
deriving DecidableEq, Repr

/-- `JWTValidator` of `src/validator_file/mod.rs` (`map_claims` values are
the validated, lowercased header names). -/
structure JWTValidator where
  authority : String
  header : String
  header_prefix : Option String
  required_claims : List RequiredClaim
  map_claims : List (String × String)
deriving DecidableEq, Repr

/-- `Config` of `src/validator_file/mod.rs`. -/
structure Config where
  authorities : List (String × JWTAuthority)
  validators : List (String × JWTValidator)
deriving DecidableEq, Repr

/-- ASCII lowercasing of one byte, as the `http` crate's header-name table
does. -/
def toLowerByte (c : Nat) : Nat :=
  if 65 ≤ c ∧ c ≤ 90 then c + 32 else c

/-- Bytes the `http` crate accepts in a header name (token chars: digits,
letters, and the RFC 7230 specials). -/
def isHeaderNameByte (c : Nat) : Bool :=
  (48 ≤ c && c ≤ 57) || (97 ≤ c && c ≤ 122) || (65 ≤ c && c ≤ 90) ||
    [33, 35, 36, 37, 38, 39, 42, 43, 45, 46, 94, 95, 96, 124, 126].contains c

/-- `HeaderName::from_str` of the `http` crate: succeed on a non-empty
token-char string, lowercasing ASCII letters. -/
def parseHeaderName (s : String) : Option String :=
  if s.data ≠ [] ∧ s.data.all (fun ch => isHeaderNameByte ch.toNat) then
    some (String.mk (s.data.map (fun ch => Char.ofNat (toLowerByte ch.toNat))))
  else
    none

/-- Normalization of one required claim inside
`JWTValidator::from_partial` (`src/validator_file/mod.rs` lines 141-164). -/
def normalizeRequiredClaim : FileRequiredClaim → RequiredClaim
  | .Complex name (some value) => ⟨name, .Single value⟩
  | .Complex name none => ⟨name, .None⟩
  | .ComplexMultiple name [] => ⟨name, .None⟩
  | .ComplexMultiple name [v] => ⟨name, .Single v⟩
  | .ComplexMultiple name vs => ⟨name, .Multiple vs⟩
  | .Simple name => ⟨name, .None⟩

/-- The `map_claims` validation inside `JWTValidator::from_partial`:
each header name must parse, else `InvalidHeaderName`. -/
def mapClaimsValidate (name : String) :
    List (String × String) → Except ValidationFileError (List (String × String))
  | [] => .ok []
  | (k, v) :: rest =>
    match parseHeaderName v with
    | some hn =>
      match mapClaimsValidate name rest with
      | .ok l => .ok ((k, hn) :: l)
      | .error e => .error e
    | none => .error (.InvalidHeaderName name k v)

/-- `JWTValidator::from_partial` of `src/validator_file/mod.rs`: the
field-by-field checks, in the order the Rust struct expression runs them. -/
def JWTValidator.from_partial (name : String) (p : PartialJWTValidator) :
    Except ValidationFileError JWTValidator :=
  match p.header with
  | none => .error (.IsMissingHeader name)
  | some header =>
    match p.authority with
    | none => .error (.IsMissingAuthority name)
    | some authority =>
      match mapClaimsValidate name p.map_claims with
      | .error e => .error e
      | .ok mc =>
        .ok ⟨authority, header, Option.filter (fun s => s != "") p.header_prefix,
          p.required_claims.map normalizeRequiredClaim, mc⟩

/-- One pass of the inheritance merge in `Config::from_file`
(`src/validator_file/mod.rs` lines 70-88): scalars adopt the template value
when the child has none, `required_claims` are extended (child first), and
`map_claims` are extended with `HashMap::extend`, which overwrites. -/
def mergeStep (cur temp : PartialJWTValidator) : PartialJWTValidator :=
  { template := cur.template
    authority := match cur.authority with | some a => some a | none => temp.authority
    header := match cur.header with | some h => some h | none => temp.header
    header_prefix :=
      match cur.header_prefix with | some hp => some hp | none => temp.header_prefix
    required_claims := cur.required_claims ++ temp.required_claims
    map_claims := assocExtend cur.map_claims temp.map_claims }

/-- The `while let Some(temp) = template` loop of `Config::from_file`
(`src/validator_file/mod.rs` lines 70-107).  The fuel `tmpls.length + 1`
bounds the walk: every successful step adds a fresh key of `tmpls` to
`visited`, so the zero-fuel branch is unreachable. -/
def resolveLoop (tmpls : List (String × PartialJWTValidator)) (name : String) :
    List String → PartialJWTValidator → PartialJWTValidator → Nat →
    Except ValidationFileError PartialJWTValidator
  | _, _, _, 0 => .error (.CircularTemplate name)
  | visited, cur, temp, fuel + 1 =>
    let merged := mergeStep cur temp
    match temp.template with
    | none => .ok merged
    | some tn =>
      if visited.contains tn then .error (.CircularTemplate tn)
      else
        match lookupAssoc tmpls tn with
        | none => .error (.MissingTemplate name tn)
        | some t => resolveLoop tmpls name (tn :: visited) merged t fuel

/-- Template resolution of a single validator entry: the `visited`
initialization and first template lookup of `Config::from_file`
(`src/validator_file/mod.rs` lines 55-68) followed by the merge loop. -/
def resolveEntry (tmpls : List (String × PartialJWTValidator)) (name : String)
    (p : PartialJWTValidator) : Except ValidationFileError PartialJWTValidator :=
  match p.template with
  | none => .ok p
  | some tn =>
    match lookupAssoc tmpls tn with
    | none => .error (.MissingTemplate name tn)
    | some t => resolveLoop tmpls name [tn] p t (tmpls.length + 1)

/-- Processing of one `(name, partial)` entry of `Config::from_file`:
resolution, `from_partial`, then the authority-existence check
(`src/validator_file/mod.rs` lines 109-116). -/
def processEntry (file : ConfigFile) (name : String) (p : PartialJWTValidator) :
    Except ValidationFileError JWTValidator :=
  match resolveEntry file.validator_templates name p with
  | .error e => .error e
  | .ok resolved =>
    match JWTValidator.from_partial name resolved with
    | .error e => .error e
    | .ok val =>
      if (lookupAssoc file.authorities val.authority).isNone then
        .error (.MissingAuthority name val.authority)
      else .ok val

/-- The `for (name, mut partial) in file.validators` loop of
`Config::from_file`: the first failing entry fails the whole load. -/
def fromFileGo (file : ConfigFile) :
    List (String × PartialJWTValidator) →
    Except ValidationFileError (List (String × JWTValidator))
  | [] => .ok []
  | (name, p) :: rest =>
    match processEntry file name p with
    | .error e => .error e
    | .ok val =>
      match fromFileGo file rest with
      | .error e => .error e
      | .ok vs => .ok ((name, val) :: vs)

/-- `Config::from_file` of `src/validator_file/mod.rs`. -/
def Config.from_file (file : ConfigFile) : Except ValidationFileError Config :=
  match fromFileGo file file.validators with
  | .error e => .error e
  | .ok validators => .ok ⟨file.authorities, validators⟩

/-! ## Template-chain walk (the spec's notion of a reachable cycle)

`chainLoop`/`chainRevisits` formalize the specification's phrase "the
resolution walk revisits a template": the deterministic name-by-name walk
along `template` references, in lockstep with `resolveLoop`'s control flow
but independent of its merging. -/

/-- The walk along `template` references, mirroring `resolveLoop`'s control
flow: `true` iff it reaches a name already visited. -/
def chainLoop (tmpls : List (String × PartialJWTValidator)) :
    List String → PartialJWTValidator → Nat → Bool
  | _, _, 0 => false
  | visited, temp, fuel + 1 =>
    match temp.template with
    | none => false
    | some tn =>
      if visited.contains tn then true
      else
        match lookupAssoc tmpls tn with
        | none => false
        | some t => chainLoop tmpls (tn :: visited) t fuel

/-- The walk started the way `Config::from_file` starts it for one
validator entry: `true` iff the entry's template chain revisits a
template. -/
def chainRevisits (tmpls : List (String × PartialJWTValidator))
    (p : PartialJWTValidator) : Bool :=
  match p.template with
  | none => false
  | some tn =>
    match lookupAssoc tmpls tn with
    | none => false
    | some t => chainLoop tmpls [tn] t (tmpls.length + 1)

/-- When the walk revisits a template, `resolveLoop` fails with
`CircularTemplate` (lockstep induction over the shared fuel). -/
theorem resolveLoop_circular_of_chain (tmpls : List (String × PartialJWTValidator))
    (name : String) :
    ∀ (fuel : Nat) (visited : List String) (cur temp : PartialJWTValidator),
      chainLoop tmpls visited temp fuel = true →
      ∃ t, resolveLoop tmpls name visited cur temp fuel =
        Except.error (ValidationFileError.CircularTemplate t) := by
  intro fuel
  induction fuel with
  | zero => intro visited cur temp h; simp [chainLoop] at h
  | succ n ih =>
    intro visited cur temp h
    cases htm : temp.template with
    | none => simp [chainLoop, htm] at h
    | some tn =>
      by_cases hv : tn ∈ visited
      · refine ⟨tn, ?_⟩
        simp [resolveLoop, htm, hv]
      · cases hl : lookupAssoc tmpls tn with
        | none => simp [chainLoop, htm, hv, hl] at h
        | some t =>
          have h' : chainLoop tmpls (tn :: visited) t n = true := by
            simpa [chainLoop, htm, hv, hl] using h
          obtain ⟨u, hu⟩ := ih (tn :: visited) (mergeStep cur temp) t h'
          refine ⟨u, ?_⟩
          simp [resolveLoop, htm, hv, hl, hu]

/-- An entry whose processing fails makes the whole `for` loop of
`Config::from_file` fail. -/
theorem fromFileGo_error_of_entry (file : ConfigFile) :
    ∀ (l : List (String × PartialJWTValidator)) (name : String)
      (p : PartialJWTValidator),
      (name, p) ∈ l → (∃ e₀, processEntry file name p = Except.error e₀) →
      ∃ e, fromFileGo file l = Except.error e := by
  intro l
  induction l with
  | nil => intro name p h _; simp at h
  | cons hd rest ih =>
    intro name p hmem herr
    obtain ⟨n₀, p₀⟩ := hd
    rw [List.mem_cons] at hmem
    cases hmem with
    | inl heq =>
      obtain ⟨e₀, he⟩ := herr
      injection heq with h1 h2
      subst h1; subst h2
      exact ⟨e₀, by simp [fromFileGo, he]⟩
    | inr hmem =>
      cases hpe : processEntry file n₀ p₀ with
      | error e => exact ⟨e, by simp [fromFileGo, hpe]⟩
      | ok val =>
        obtain ⟨e, he⟩ := ih name p hmem herr
        exact ⟨e, by simp [fromFileGo, hpe, he]⟩

/-! ## Concrete configurations used by the claims -/

/-- An authority entry named `a1`. -/
def authA1 : JWTAuthority := ⟨"https://jwks.example/keys", [], none, none, none, none⟩

/-- Template for C2: maps claim `sub` to header `x-template`. -/
def tC2 : PartialJWTValidator :=
  ⟨none, some "a1", some "authorization", none, [], [("sub", "x-template")]⟩

/-- Child validator for C2: maps claim `sub` to header `x-child` and
inherits from `t`. -/
def vC2 : PartialJWTValidator :=
  ⟨some "t", none, none, none, [], [("sub", "x-child")]⟩

/-- Configuration for C2: child and template disagree on `map_claims["sub"]`. -/
def cfgC2 : ConfigFile := ⟨[("a1", authA1)], [("t", tC2)], [("v", vC2)]⟩

/-- Template for C8, with required claim `{iss, Single "https://x"}`. -/
def tC8 : PartialJWTValidator :=
  ⟨none, some "a1", some "authorization", none, [.Complex "iss" (some "https://x")], []⟩

/-- Child validator for C8, with required claim `{sub, None}`. -/
def vC8 : PartialJWTValidator :=
  ⟨some "t", none, none, none, [.Simple "sub"], []⟩

/-- Configuration for C8 (the spec's template-inheritance scenario). -/
def cfgC8 : ConfigFile := ⟨[("a1", authA1)], [("t", tC8)], [("v", vC8)]⟩

/-- A self-referencing template: the cycle `t -> t`. -/
def tLoop : PartialJWTValidator := ⟨some "t", none, none, none, [], []⟩

/-- Configuration whose template graph has a cycle that no validator
references. -/
def cfgC5cex : ConfigFile := ⟨[], [("t", tLoop)], []⟩

/-- A validator entry whose chain enters the cycle `t -> t`. -/
def pC5Ref : PartialJWTValidator := ⟨some "t", none, none, none, [], []⟩

/-- Configuration with a validator whose chain reaches the cycle. -/
def fileC5W : ConfigFile := ⟨[], [("t", tLoop)], [("v", pC5Ref)]⟩

/-! ## Claims C2, C5, C8 -/

/-- C2 counterexample: in `cfgC2` the child validator `v` sets
`map_claims["sub"] = "x-child"` while its template sets `"x-template"`;
the resolved configuration carries the TEMPLATE's value, because
`HashMap::extend` overwrites — the child does not win. -/
theorem C2_child_wins_counterexample :
    (match Config.from_file cfgC2 with
      | .ok cfg => (lookupAssoc cfg.validators "v").map JWTValidator.map_claims
      | .error _ => none) = some [("sub", "x-template")] ∧
    lookupAssoc vC2.map_claims "sub" = some "x-child" := by
  decide

/-- C2 amended: in the template-inheritance merge the TEMPLATE wins on
`map_claims`: each `(k, v)` of the template is inserted unconditionally,
overwriting the child's entry, so the merged map gives the template's value
for every key of the template and the child's value only for keys the
template lacks. -/
theorem C2_template_overwrites_merge (cur temp : PartialJWTValidator) (k : String)
    (hnd : (temp.map_claims.map Prod.fst).Nodup) :
    lookupAssoc (mergeStep cur temp).map_claims k =
      (lookupAssoc temp.map_claims k).elim (lookupAssoc cur.map_claims k) some := by
  have hm : (mergeStep cur temp).map_claims = assocExtend cur.map_claims temp.map_claims :=
    rfl
  rw [hm]
  exact lookupAssoc_assocExtend cur.map_claims temp.map_claims hnd k

/-- Witness for C2's amended theorem at the concrete C2 configuration. -/
theorem C2_template_overwrites_merge_witness :
    (tC2.map_claims.map Prod.fst).Nodup ∧
    lookupAssoc (mergeStep vC2 tC2).map_claims "sub" = some "x-template" :=
  ⟨by decide, (C2_template_overwrites_merge vC2 tC2 "sub" (by decide)).trans (by decide)⟩

/-- C5 counterexample: `cfgC5cex`'s template graph contains the cycle
`t -> t`, yet loading succeeds with the empty configuration — a cycle that
no validator's chain reaches does not fail the load. -/
theorem C5_unreferenced_cycle_loads :
    Config.from_file cfgC5cex = Except.ok ⟨[], []⟩ ∧
    (lookupAssoc cfgC5cex.validator_templates "t").bind PartialJWTValidator.template =
      some "t" :=
  ⟨rfl, rfl⟩

/-- C5 amended: whenever some validator entry's template chain revisits a
template (a cycle reachable from that entry), its resolution fails with
`CircularTemplate`, and if that entry is among the file's validators the
whole load fails — no partial `Config` is produced. -/
theorem C5_reachable_cycle_fails (file : ConfigFile) (name : String)
    (p : PartialJWTValidator)
    (h : chainRevisits file.validator_templates p = true) :
    (∃ t, resolveEntry file.validator_templates name p =
        Except.error (ValidationFileError.CircularTemplate t)) ∧
    ((name, p) ∈ file.validators → ∃ e, Config.from_file file = Except.error e) := by
  have hloop : ∃ t, resolveEntry file.validator_templates name p =
      Except.error (ValidationFileError.CircularTemplate t) := by
    cases htm : p.template with
    | none => simp [chainRevisits, htm] at h
    | some tn =>
      cases hl : lookupAssoc file.validator_templates tn with
      | none => simp [chainRevisits, htm, hl] at h
      | some t =>
        have h' : chainLoop file.validator_templates [tn] t
            (file.validator_templates.length + 1) = true := by
          simpa [chainRevisits, htm, hl] using h
        obtain ⟨u, hu⟩ := resolveLoop_circular_of_chain file.validator_templates name
          (file.validator_templates.length + 1) [tn] p t h'
        refine ⟨u, ?_⟩
        simp [resolveEntry, htm, hl, hu]
  refine ⟨hloop, fun hmem => ?_⟩
  obtain ⟨t, ht⟩ := hloop
  have hpe : ∃ e₀, processEntry file name p = Except.error e₀ :=
    ⟨.CircularTemplate t, by simp [processEntry, ht]⟩
  obtain ⟨e, he⟩ := fromFileGo_error_of_entry file file.validators name p hmem hpe
  exact ⟨e, by simp [Config.from_file, he]⟩

/-- Witness for C5's amended theorem at the concrete cyclic configuration. -/
theorem C5_reachable_cycle_fails_witness :
    chainRevisits fileC5W.validator_templates pC5Ref = true ∧
    (∃ t, resolveEntry fileC5W.validator_templates "v" pC5Ref =
        Except.error (ValidationFileError.CircularTemplate t)) ∧
    (∃ e, Config.from_file fileC5W = Except.error e) :=
  ⟨by decide, (C5_reachable_cycle_fails fileC5W "v" pC5Ref (by decide)).1,
    (C5_reachable_cycle_fails fileC5W "v" pC5Ref (by decide)).2 (by decide)⟩

/-- C8: at every step of the chain the template's `required_claims` are
appended, template-ordered, to the end of the child's; in particular the
spec's scenario (child `[{sub, None}]`, template `[{iss, Single "https://x"}]`)
resolves to `[{sub, None}, {iss, Single "https://x"}]`. -/
theorem C8_required_claims_append :
    (∀ cur temp : PartialJWTValidator,
      (mergeStep cur temp).required_claims =
        cur.required_claims ++ temp.required_claims) ∧
    (match Config.from_file cfgC8 with
      | .ok cfg => (lookupAssoc cfg.validators "v").map JWTValidator.required_claims
      | .error _ => none) =
      some [⟨"sub", RequiredClaimValue.None⟩,
        ⟨"iss", RequiredClaimValue.Single "https://x"⟩] :=
  ⟨fun _ _ => rfl, by decide⟩

/-! ## `src/validators/jwks.rs` — the JWKS store

HTTP I/O is made explicit: a refresh consumes a `FetchResult` describing
the response the `reqwest` client observed (with the body already given as
its parse result) and the current wall time in microseconds. -/

/-- One key of a JWKS document, as `aliri::Jwks` keeps it: an optional
`kid` and an algorithm tag. -/
structure JwksKey where
  kid : Option String
  alg : String
deriving DecidableEq, Repr

/-- `JwksStateInner` + its `Volatile` cell of `src/validators/jwks.rs`:
the cached keys, the conditional-refresh headers, and the `AtomicInstant`
last-refresh stamp (microseconds since the Unix epoch). -/
structure JwksStateM where
  uri : String
  jwks : List JwksKey
  etag : Option String
  last_modified : Option String
  last_refresh : Nat
deriving DecidableEq, Repr

/-- `JwksState::new` of `src/validators/jwks.rs`: default (empty) key set,
no ETag, no Last-Modified, `AtomicInstant::empty()` = 0. -/
def JwksState.new (uri : String) : JwksStateM := ⟨uri, [], none, none, 0⟩

/-- The observed outcome of the `reqwest` GET: transport failure, or a
response with status, optional validators, and the body's JWKS parse
result (`none` = the body did not parse). -/
inductive FetchResult where
  | transportError
  | response (status : Nat) (etag : Option String) (last_modified : Option String)
      (body : Option (List JwksKey))
deriving DecidableEq, Repr

/-- The `Result` returned by `JwksState::refresh`, with the error cause
split the way the code branches. -/
inductive RefreshResult where
  | ok
  | transportErr
  | statusErr (status : Nat)
  | parseErr
deriving DecidableEq, Repr

/-- `JwksState::refresh` of `src/validators/jwks.rs` (lines 96-156): a 304
returns Ok without touching anything; `error_for_status_ref` fails exactly
on statuses 400-599; otherwise the body is parsed and, on success, the
`{jwks, etag, last_modified}` triple is swapped and `last_refresh` set to
now. -/
def JwksState.refresh (s : JwksStateM) (r : FetchResult) (now : Nat) :
    JwksStateM × RefreshResult :=
  match r with
  | .transportError => (s, .transportErr)
  | .response status etag lm body =>
    if status = 304 then (s, .ok)
    else if 400 ≤ status ∧ status ≤ 599 then (s, .statusErr status)
    else
      match body with
      | none => (s, .parseErr)
      | some jwks => (⟨s.uri, jwks, etag, lm, now⟩, .ok)

/-- `JwksStore::ensure` of `src/validators/jwks.rs`: insert-if-absent. -/
def JwksStore.ensure (store : List (String × JwksStateM)) (uri : String) :
    List (String × JwksStateM) :=
  match lookupAssoc store uri with
  | some _ => store
  | none => store ++ [(uri, JwksState.new uri)]

/-- `JwksStore::get` of `src/validators/jwks.rs`: return the entry,
inserting a fresh one if absent. -/
def JwksStore.get (store : List (String × JwksStateM)) (uri : String) :
    JwksStateM × List (String × JwksStateM) :=
  match lookupAssoc store uri with
  | some s => (s, store)
  | none => (JwksState.new uri, store ++ [(uri, JwksState.new uri)])

/-- `JwksStore::refresh_new` of `src/validators/jwks.rs` (lines 230-248):
refresh exactly the entries whose `last_refresh.duration_since(UNIX_EPOCH)`
is under 3600 seconds (`last_refresh` is epoch + stored microseconds, so
the `Err` arm of `duration_since` cannot fire and the filter is
`micros / 1000000 < 3600`). -/
def JwksStore.refresh_new (store : List (String × JwksStateM))
    (fetch : String → FetchResult) (now : Nat) : List (String × JwksStateM) :=
  store.map (fun e =>
    if e.2.last_refresh / 1000000 < 3600 then
      (e.1, (JwksState.refresh e.2 (fetch e.1) now).1)
    else e)

/-! ## `src/validators/authority.rs` — key selection and validation -/

/-- The syntactic decomposition of a compact JWT that `Authority::validate`
consumes: the header's optional `kid` and its algorithm. -/
structure DecomposedToken where
  kid : Option String
  alg : String
deriving DecidableEq, Repr

/-- `AuthorityError` of `src/validators/authority.rs` (the verify-error
payload is irrelevant to the claims below). -/
inductive AuthorityError where
  | MissingKey (kid : Option String) (alg : String)
  | JwtVerifyError
deriving DecidableEq, Repr

/-- `aliri`'s `Jwks::get_key_by_opt`: with a `kid`, find a key with that
`kid` and algorithm; without, find by algorithm alone.  On an empty key
list it returns `none` either way. -/
def get_key_by_opt (keys : List JwksKey) (kid : Option String) (alg : String) :
    Option JwksKey :=
  match kid with
  | some k => keys.find? (fun key => key.kid == some k && key.alg == alg)
  | none => keys.find? (fun key => key.alg == alg)

/-! ## `src/validators/claims.rs` — the parsed token claims -/

/-- `serde_json::Value` (numbers kept as integers, the only shape the
handler stringifies). -/
inductive JsonValue where
  | null
  | bool (b : Bool)
  | num (n : Int)
  | str (s : String)
  | arr (xs : List JsonValue)
  | obj (fields : List (String × JsonValue))

/-- `JWTClaims` of `src/validators/claims.rs`. -/
structure JWTClaims where
  aud : Option (List String)
  iss : Option String
  sub : Option String
  exp : Option Nat
  nbf : Option Nat
  other : List (String × JsonValue)

/-- `Authority::validate` of `src/validators/authority.rs` (lines 75-99):
select the key with `get_key_by_opt`, failing with `MissingKey`; signature
and standard-claim verification is the `aliri` library call, taken as the
oracle `verify`. -/
def Authority.validate (keys : List JwksKey) (tok : DecomposedToken)
    (verify : JwksKey → Except Unit JWTClaims) : Except AuthorityError JWTClaims :=
  match get_key_by_opt keys tok.kid tok.alg with
  | none => .error (.MissingKey tok.kid tok.alg)
  | some key =>
    match verify key with
    | .ok claims => .ok claims
    | .error _ => .error .JwtVerifyError

/-! ## Claims C4, C6, C10 -/

/-- The state used by C6's counterexample: a warm cache stamped at 5 μs. -/
def s0C6 : JwksStateM := ⟨"https://jwks.example/keys", [], none, none, 5⟩

/-- A `301` response carrying a body that parses as a JWKS. -/
def respC6 : FetchResult :=
  .response 301 (some "W/1") none (some [⟨some "k1", "RS256"⟩])

/-- C6 counterexample: `301` is not a 2xx status, yet `refresh` treats it
as success — `error_for_status` only fails on 400-599 — so the stored
triple is swapped and `last_refresh` moves to `now`, against the claim
that any non-2xx returns the status as an error with no state change. -/
theorem C6_non2xx_counterexample :
    (JwksState.refresh s0C6 respC6 7).2 = RefreshResult.ok ∧
    (JwksState.refresh s0C6 respC6 7).1.last_refresh = 7 ∧
    (JwksState.refresh s0C6 respC6 7).1.jwks = [⟨some "k1", "RS256"⟩] ∧
    ¬(200 ≤ 301 ∧ 301 ≤ 299) := by
  decide

/-- C6 amended: `refresh` leaves the state untouched on transport errors,
on `304` (returning Ok), on statuses 400-599 (returning the status as the
error), and on a parse failure of any other status's body; the triple is
swapped and `last_refresh` set to `now` exactly on a non-304 status
outside 400-599 whose body parses. -/
theorem C6_refresh_protocol (s : JwksStateM) (status : Nat) (etag lm : Option String)
    (body : Option (List JwksKey)) (now : Nat) :
    (JwksState.refresh s FetchResult.transportError now = (s, RefreshResult.transportErr)) ∧
    (status = 304 →
      JwksState.refresh s (.response status etag lm body) now = (s, RefreshResult.ok)) ∧
    (400 ≤ status → status ≤ 599 →
      JwksState.refresh s (.response status etag lm body) now =
        (s, RefreshResult.statusErr status)) ∧
    (status ≠ 304 → ¬(400 ≤ status ∧ status ≤ 599) → body = none →
      JwksState.refresh s (.response status etag lm body) now = (s, RefreshResult.parseErr)) ∧
    (∀ jwks, status ≠ 304 → ¬(400 ≤ status ∧ status ≤ 599) → body = some jwks →
      JwksState.refresh s (.response status etag lm body) now =
        (⟨s.uri, jwks, etag, lm, now⟩, RefreshResult.ok)) := by
  refine ⟨rfl, ?_, ?_, ?_, ?_⟩
  · intro h; subst h; simp [JwksState.refresh]
  · intro h4 h5
    have h304 : status ≠ 304 := by omega
    simp [JwksState.refresh, h304, h4, h5]
  · intro h304 hng hb; subst hb
    simp [JwksState.refresh, h304, hng]
  · intro jwks h304 hng hb; subst hb
    simp [JwksState.refresh, h304, hng]

/-- Witness for C6's amended theorem: a `304` and a `500` at concrete
state. -/
theorem C6_refresh_protocol_witness :
    JwksState.refresh s0C6 (.response 304 none none none) 9 = (s0C6, RefreshResult.ok) ∧
    JwksState.refresh s0C6 (.response 500 none none none) 9 =
      (s0C6, RefreshResult.statusErr 500) :=
  ⟨(C6_refresh_protocol s0C6 304 none none none 9).2.1 rfl,
    (C6_refresh_protocol s0C6 500 none none none 9).2.2.1 (by decide) (by decide)⟩

/-- A wall-clock instant (microseconds) in 2025. -/
def nowC4 : Nat := 1760000000000000

/-- A JWKS entry refreshed exactly at `nowC4` — zero seconds ago. -/
def entryC4 : JwksStateM := ⟨"https://jwks.example/keys", [], none, none, nowC4⟩

/-- The store holding only `entryC4`. -/
def storeC4 : List (String × JwksStateM) := [("https://jwks.example/keys", entryC4)]

/-- A fetch whose success would visibly change any entry. -/
def fetchC4 : String → FetchResult :=
  fun _ => .response 200 none none (some [⟨some "k1", "RS256"⟩])

/-- C4 counterexample: `entryC4` was refreshed zero seconds ago — "less
than one hour ago" — yet `refresh_new` leaves the whole store untouched,
because its filter compares `last_refresh` against the Unix epoch, not
against now (a refresh would have changed the entry, third conjunct). -/
theorem C4_refresh_new_counterexample :
    JwksStore.refresh_new storeC4 fetchC4 nowC4 = storeC4 ∧
    (nowC4 - entryC4.last_refresh) / 1000000 < 3600 ∧
    (JwksState.refresh entryC4 (fetchC4 entryC4.uri) nowC4).1 ≠ entryC4 := by
  decide

/-- C4 amended: `refresh_new` refreshes exactly those entries whose
`last_refresh` lies within 3600 seconds of the Unix epoch (in particular
the never-refreshed entries, whose stamp is 0) and leaves every other
entry untouched: position by position, an entry is replaced by its
refreshed state when `last_refresh / 1000000 < 3600` and kept identical
otherwise — and any entry at or past one hour after the epoch is still a
member of the result, unchanged. -/
theorem C4_refresh_new_epoch_predicate (store : List (String × JwksStateM))
    (fetch : String → FetchResult) (now : Nat) :
    (∀ i : Nat, (JwksStore.refresh_new store fetch now)[i]? =
      (store[i]?).map (fun e =>
        if e.2.last_refresh / 1000000 < 3600 then
          (e.1, (JwksState.refresh e.2 (fetch e.1) now).1)
        else e)) ∧
    (∀ e ∈ store, ¬e.2.last_refresh / 1000000 < 3600 →
      e ∈ JwksStore.refresh_new store fetch now) := by
  constructor
  · intro i
    simp [JwksStore.refresh_new, List.getElem?_map]
  · intro e hmem hold
    have : (if e.2.last_refresh / 1000000 < 3600 then
        (e.1, (JwksState.refresh e.2 (fetch e.1) now).1) else e) = e := if_neg hold
    rw [JwksStore.refresh_new, ← this]
    exact List.mem_map_of_mem _ hmem

/-- Witness for C4's amended theorem at the one-entry store. -/
theorem C4_refresh_new_epoch_predicate_witness :
    (JwksStore.refresh_new storeC4 fetchC4 nowC4)[0]? =
      some ("https://jwks.example/keys", entryC4) ∧
    ("https://jwks.example/keys", entryC4) ∈ JwksStore.refresh_new storeC4 fetchC4 nowC4 :=
  ⟨((C4_refresh_new_epoch_predicate storeC4 fetchC4 nowC4).1 0).trans (by decide),
    (C4_refresh_new_epoch_predicate storeC4 fetchC4 nowC4).2 _ (by decide) (by decide)⟩

/-- C10: a freshly created entry (absent URI, via `get` or `ensure`) holds
the empty key set, no ETag, no Last-Modified, and the epoch stamp 0; and
`Authority::validate` against its (empty) keys fails with `MissingKey` for
every decomposed token and any verifier. -/
theorem C10_fresh_entry_missing_key (store : List (String × JwksStateM)) (uri : String)
    (tok : DecomposedToken) (verify : JwksKey → Except Unit JWTClaims)
    (h : lookupAssoc store uri = none) :
    (JwksStore.get store uri).1 = JwksState.new uri ∧
    JwksStore.ensure store uri = store ++ [(uri, JwksState.new uri)] ∧
    JwksState.new uri = ⟨uri, [], none, none, 0⟩ ∧
    Authority.validate (JwksState.new uri).jwks tok verify =
      Except.error (AuthorityError.MissingKey tok.kid tok.alg) := by
  refine ⟨?_, ?_, rfl, ?_⟩
  · simp [JwksStore.get, h]
  · simp [JwksStore.ensure, h]
  · obtain ⟨kid, alg⟩ := tok
    cases kid <;> rfl

/-- Witness for C10 on the empty store. -/
theorem C10_fresh_entry_missing_key_witness :
    (JwksStore.get [] "https://a/jwks").1 = JwksState.new "https://a/jwks" ∧
    JwksStore.ensure [] "https://a/jwks" = [("https://a/jwks", JwksState.new "https://a/jwks")] ∧
    JwksState.new "https://a/jwks" = ⟨"https://a/jwks", [], none, none, 0⟩ ∧
    Authority.validate (JwksState.new "https://a/jwks").jwks ⟨some "kid1", "RS256"⟩
        (fun _ => Except.error ()) =
      Except.error (AuthorityError.MissingKey (some "kid1") "RS256") :=
  C10_fresh_entry_missing_key [] "https://a/jwks" ⟨some "kid1", "RS256"⟩
    (fun _ => Except.error ()) rfl

/-! ## `src/main.rs` + `src/validators/store.rs` — the lifecycle machine -/

/-- `States` of `src/main.rs`. -/
inductive States where
  | Starting
  | Running
  | FaultyConfig
deriving DecidableEq, Repr

/-- The observable state of the orchestrator: the lifecycle cell plus the
names held by the authority and validator stores. -/
structure StoresModel where
  lifecycle : States
  authorities : List String
  validators : List String
deriving DecidableEq, Repr

/-- The state at boot: `State::new(States::Starting)` with empty stores. -/
def Store.initial : StoresModel := ⟨.Starting, [], []⟩

/-- The first observation in `Store::start_file_watcher`
(`src/validators/store.rs` lines 117-127): on `Ok`, `load` then set
`Running`; on `Err`, set `FaultyConfig` and leave the stores as they are. -/
def Store.firstObservation (m : StoresModel) (r : Except ValidationFileError Config) :
    StoresModel :=
  match r with
  | .ok cfg => ⟨.Running, cfg.authorities.map Prod.fst, cfg.validators.map Prod.fst⟩
  | .error _ => ⟨.FaultyConfig, m.authorities, m.validators⟩

/-- One iteration of the reload loop in `Store::start_file_watcher`
(`src/validators/store.rs` lines 131-148): on `Ok`, `load` the new maps —
the lifecycle cell is not written; on `Err`, set `FaultyConfig` and clear
both stores. -/
def Store.reloadStep (m : StoresModel) (r : Except ValidationFileError Config) :
    StoresModel :=
  match r with
  | .ok cfg => ⟨m.lifecycle, cfg.authorities.map Prod.fst, cfg.validators.map Prod.fst⟩
  | .error _ => ⟨.FaultyConfig, [], []⟩

/-- The empty (but valid) configuration. -/
def cfgEmpty : Config := ⟨[], []⟩

/-- C3: after a successful first load (state `Running`) and a failed
reload (state `FaultyConfig`), a successful reload leaves the state at
`FaultyConfig` — the reload loop's `Ok` arm never writes the lifecycle
cell, so the machine never returns to `Running`. -/
theorem C3_lifecycle_stuck_after_recovery :
    (Store.firstObservation Store.initial (.ok cfgEmpty)).lifecycle = States.Running ∧
    (Store.reloadStep (Store.firstObservation Store.initial (.ok cfgEmpty))
        (.error (.CircularTemplate "t"))).lifecycle = States.FaultyConfig ∧
    (Store.reloadStep
        (Store.reloadStep (Store.firstObservation Store.initial (.ok cfgEmpty))
          (.error (.CircularTemplate "t")))
        (.ok cfgEmpty)).lifecycle = States.FaultyConfig :=
  ⟨rfl, rfl, rfl⟩

/-! ## `src/validators/mod.rs` — the request handler -/

/-- A UTF-8 continuation byte. -/
def isCont (b : Nat) : Bool := 128 ≤ b && b ≤ 191

/-- `std::str::from_utf8` validity over a byte list (the standard table:
overlongs, surrogates and values above U+10FFFF rejected). -/
def utf8Valid : List Nat → Bool
  | [] => true
  | b :: rest =>
    if b ≤ 127 then utf8Valid rest
    else if 194 ≤ b && b ≤ 223 then
      match rest with
      | c1 :: rest2 => isCont c1 && utf8Valid rest2
      | [] => false
    else if b = 224 then
      match rest with
      | c1 :: c2 :: rest2 => (160 ≤ c1 && c1 ≤ 191) && isCont c2 && utf8Valid rest2
      | _ => false
    else if (225 ≤ b && b ≤ 236) || (238 ≤ b && b ≤ 239) then
      match rest with
      | c1 :: c2 :: rest2 => isCont c1 && isCont c2 && utf8Valid rest2
      | _ => false
    else if b = 237 then
      match rest with
      | c1 :: c2 :: rest2 => (128 ≤ c1 && c1 ≤ 159) && isCont c2 && utf8Valid rest2
      | _ => false
    else if b = 240 then
      match rest with
      | c1 :: c2 :: c3 :: rest2 =>
        (144 ≤ c1 && c1 ≤ 191) && isCont c2 && isCont c3 && utf8Valid rest2
      | _ => false
    else if 241 ≤ b && b ≤ 243 then
      match rest with
      | c1 :: c2 :: c3 :: rest2 => isCont c1 && isCont c2 && isCont c3 && utf8Valid rest2
      | _ => false
    else if b = 244 then
      match rest with
      | c1 :: c2 :: c3 :: rest2 =>
        (128 ≤ c1 && c1 ≤ 143) && isCont c2 && isCont c3 && utf8Valid rest2
      | _ => false
    else false

/-- UTF-8 encoding of one scalar value. -/
def utf8EncodeChar (n : Nat) : List Nat :=
  if n ≤ 127 then [n]
  else if n ≤ 2047 then [192 + n / 64, 128 + n % 64]
  else if n ≤ 65535 then [224 + n / 4096, 128 + (n / 64) % 64, 128 + n % 64]
  else [240 + n / 262144, 128 + (n / 4096) % 64, 128 + (n / 64) % 64, 128 + n % 64]

/-- `str::as_bytes`: the UTF-8 bytes of a string. -/
def strBytes (s : String) : List Nat :=
  (s.data.map (fun c => utf8EncodeChar c.toNat)).flatten

/-- The handler's outcome: an HTTP response (status, body, response
headers as raw byte values), or a panic (`expect`). -/
inductive HandlerResponse where
  | response (status : Nat) (body : String) (headers : List (String × List Nat))
  | panic (msg : String)
deriving DecidableEq, Repr

/-- The runtime `Authority` as the handler reads it: its JWKS entry
snapshot and `update_interval` (microseconds). -/
structure AuthorityR where
  jwks : JwksStateM
  update_interval : Nat
deriving DecidableEq, Repr

/-- The runtime `Validator` of `src/validators/validator.rs`. -/
structure ValidatorR where
  authority : AuthorityR
  header : String
  strip_prefix : Option String
  required_claims : List RequiredClaim
  map_claims : List (String × String)

/-- A `401` response with a plain-text body and no headers. -/
def unauthorized (body : String) : HandlerResponse := .response 401 body []

/-- `serde_json::Value` stringification used by the claim loops of
`handler`: null, bool, number and string succeed; arrays and objects do
not (`none`). -/
def stringifyClaim : JsonValue → Option String
  | .null => some ""
  | .bool b => some (if b then "true" else "false")
  | .num n => some (toString n)
  | .str s => some s
  | .arr _ => none
  | .obj _ => none

/-- `HeaderMap::insert`: replaces the value under an existing name. -/
def headersInsert (hs : List (String × List Nat)) (k : String) (v : List Nat) :
    List (String × List Nat) :=
  assocInsert hs k v

/-- The `aud` list joined with commas, as the handler renders it. -/
def joinAud (aud : List String) : String := String.intercalate "," aud

/-- Step 7 of the handler (`src/validators/mod.rs` lines 123-324): enforce
`required_claims` in order, emitting mapped headers and remembering the
emitted names in `already_inserted`; the first violation returns its 401
response. -/
def enforceLoop (v : ValidatorR) (claims : JWTClaims) :
    List RequiredClaim → List (String × List Nat) → List String →
    Except HandlerResponse (List (String × List Nat) × List String)
  | [], headers, inserted => .ok (headers, inserted)
  | c :: rest, headers, inserted =>
    if c.name = "aud" then
      match claims.aud with
      | none => .error (unauthorized "Token is missing audience claim")
      | some aud =>
        if !(aud.any (fun a => c.value.matches a)) then
          .error (unauthorized "Token doesn't match required audience")
        else
          match lookupAssoc v.map_claims "aud" with
          | some key =>
            enforceLoop v claims rest
              (headersInsert headers key (headerValLossy (strBytes (joinAud aud))))
              (inserted ++ ["aud"])
          | none => enforceLoop v claims rest headers inserted
    else if c.name = "iss" then
      match claims.iss with
      | none => .error (unauthorized "Token is missing issuer claim")
      | some iss =>
        if !(c.value.matches iss) then
          .error (unauthorized "Token doesn't match required issuer")
        else
          match lookupAssoc v.map_claims "iss" with
          | some key =>
            enforceLoop v claims rest
              (headersInsert headers key (headerValLossy (strBytes iss)))
              (inserted ++ ["iss"])
          | none => enforceLoop v claims rest headers inserted
    else if c.name = "sub" then
      match claims.sub with
      | none => .error (unauthorized "Token is missing subject claim")
      | some sub =>
        if !(c.value.matches sub) then
          .error (unauthorized "Token doesn't match required subject")
        else
          match lookupAssoc v.map_claims "sub" with
          | some key =>
            enforceLoop v claims rest
              (headersInsert headers key (headerValLossy (strBytes sub)))
              (inserted ++ ["sub"])
          | none => enforceLoop v claims rest headers inserted
    else if c.name = "exp" then
      match claims.exp with
      | none => .error (unauthorized "Token is missing expiration claim")
      | some exp =>
        if !(c.value.matches (toString exp)) then
          .error (unauthorized "Token doesn't match required expiration")
        else
          match lookupAssoc v.map_claims "exp" with
          | some key =>
            enforceLoop v claims rest
              (headersInsert headers key (headerValLossy (strBytes (toString exp))))
              (inserted ++ ["exp"])
          | none => enforceLoop v claims rest headers inserted
    else if c.name = "nbf" then
      match claims.nbf with
      | none => .error (unauthorized "Token is missing not before claim")
      | some nbf =>
        if !(c.value.matches (toString nbf)) then
          .error (unauthorized "Token doesn't match required not before")
        else
          match lookupAssoc v.map_claims "nbf" with
          | some key =>
            enforceLoop v claims rest
              (headersInsert headers key (headerValLossy (strBytes (toString nbf))))
              (inserted ++ ["nbf"])
          | none => enforceLoop v claims rest headers inserted
    else
      match lookupAssoc claims.other c.name with
      | none =>
        .error (unauthorized ("Token is missing required " ++ c.name ++ " claim"))
      | some jv =>
        match stringifyClaim jv with
        | none => .error (unauthorized "Token contains invalid claim")
        | some matcher =>
          if !(c.value.matches matcher) then
            .error (unauthorized ("Token doesn't match required " ++ c.name ++ " claim"))
          else
            match lookupAssoc v.map_claims c.name with
            | some key =>
              enforceLoop v claims rest
                (headersInsert headers key (headerValLossy (strBytes matcher)))
                (inserted ++ [c.name])
            | none => enforceLoop v claims rest headers inserted

/-- Step 8 of the handler (`src/validators/mod.rs` lines 326-378): iterate
`map_claims` FILTERED TO the names already inserted during step 7 — the
filter in the source has no negation — re-reading each kept claim and
re-inserting its header; arrays/objects and absent claims are skipped. -/
def projectLoop (claims : JWTClaims) (inserted : List String) :
    List (String × String) → List (String × List Nat) → List (String × List Nat)
  | [], headers => headers
  | (claim, header) :: rest, headers =>
    if !(inserted.contains claim) then
      projectLoop claims inserted rest headers
    else
      let headers2 :=
        if claim = "aud" then
          match claims.aud with
          | some aud => headersInsert headers header (headerValLossy (strBytes (joinAud aud)))
          | none => headers
        else if claim = "iss" then
          match claims.iss with
          | some iss => headersInsert headers header (headerValLossy (strBytes iss))
          | none => headers
        else if claim = "sub" then
          match claims.sub with
          | some sub => headersInsert headers header (headerValLossy (strBytes sub))
          | none => headers
        else if claim = "exp" then
          match claims.exp with
          | some exp => headersInsert headers header (headerValLossy (strBytes (toString exp)))
          | none => headers
        else if claim = "nbf" then
          match claims.nbf with
          | some nbf => headersInsert headers header (headerValLossy (strBytes (toString nbf)))
          | none => headers
        else
          match lookupAssoc claims.other claim with
          | some jv =>
            match stringifyClaim jv with
            | some val => headersInsert headers header (headerValLossy (strBytes val))
            | none => headers
          | none => headers
      projectLoop claims inserted rest headers2

/-- The post-validation tail of `handler`: claim enforcement then the
`map_claims` projection, ending in `200` with the accumulated headers. -/
def enforceAndProject (v : ValidatorR) (claims : JWTClaims) : HandlerResponse :=
  match enforceLoop v claims v.required_claims [] [] with
  | .error resp => resp
  | .ok (headers, inserted) =>
    .response 200 "" (projectLoop claims inserted v.map_claims headers)

/-- The prefix stripping of `handler` (`src/validators/mod.rs` lines
62-72): drop the configured prefix when it is one, keep the raw bytes
otherwise. -/
def stripToken (v : ValidatorR) (raw : List Nat) : List Nat :=
  match v.strip_prefix with
  | some p => if (strBytes p).isPrefixOf raw then raw.drop (strBytes p).length else raw
  | none => raw

/-- `handler` of `src/validators/mod.rs`: validator lookup, token-header
extraction, UTF-8 check, the `last_refresh().elapsed().expect(..)` clock
read (panicking when `last_refresh` is strictly later than now), signature
validation (the `aliri` verification taken as the oracle `validate`), then
enforcement and projection.  The detached refresh spawn has no effect on
the response. -/
def handler (store : List (String × ValidatorR)) (template : String)
    (reqHeaders : List (String × List Nat)) (now : Nat)
    (validate : List Nat → Except Unit JWTClaims) : HandlerResponse :=
  match lookupAssoc store template with
  | none => .response 401 "Token could not be validated" []
  | some v =>
    match lookupAssoc reqHeaders v.header with
    | none => .response 401 ("Header " ++ v.header ++ " not found") []
    | some raw =>
      let token := stripToken v raw
      if !(utf8Valid token) then .response 401 "Token is not valid UTF-8" []
      else if now < v.authority.jwks.last_refresh then .panic "time went backwards"
      else
        match validate token with
        | .error _ => .response 401 "Token isn't valid" []
        | .ok claims => enforceAndProject v claims

/-! ## Claims C1 and C9 -/

/-- Validator for C1: no required claims, `map_claims` sending `sub` to
header `x-user`. -/
def vC1 : ValidatorR :=
  ⟨⟨⟨"https://jwks.example/keys", [], none, none, 0⟩, 3600000000⟩,
    "authorization", none, [], [("sub", "x-user")]⟩

/-- Validated claims for C1: `sub = "alice"`. -/
def claimsC1 : JWTClaims := ⟨none, none, some "alice", none, none, []⟩

/-- C1 (code bug record): `vC1` maps claim `sub` — which is not among the
required claims, hence never emitted during step 7 — to header `x-user`,
and the validated token carries `sub = "alice"`; the handler nevertheless
responds `200` with NO headers, because the step-8 loop filters
`map_claims` to the names ALREADY inserted instead of those not yet
inserted. -/
theorem C1_unmapped_claims_never_projected :
    vC1.map_claims = [("sub", "x-user")] ∧
    vC1.required_claims = [] ∧
    claimsC1.sub = some "alice" ∧
    enforceAndProject vC1 claimsC1 = HandlerResponse.response 200 "" [] :=
  ⟨rfl, rfl, rfl, rfl⟩

/-- C9: whenever the validator is found, the configured token header is
present and (after prefix stripping) valid UTF-8, and the JWKS entry's
`last_refresh` is strictly later than the current wall time, the handler
panics with "time went backwards" instead of producing any HTTP
response. -/
theorem C9_clock_rollback_panics (store : List (String × ValidatorR))
    (template : String) (reqHeaders : List (String × List Nat)) (now : Nat)
    (validate : List Nat → Except Unit JWTClaims) (v : ValidatorR) (raw : List Nat)
    (hv : lookupAssoc store template = some v)
    (hraw : lookupAssoc reqHeaders v.header = some raw)
    (hutf : utf8Valid (stripToken v raw) = true)
    (hclock : now < v.authority.jwks.last_refresh) :
    handler store template reqHeaders now validate =
      HandlerResponse.panic "time went backwards" := by
  simp [handler, hv, hraw, hutf, hclock]

/-- JWKS entry for C9's witness, stamped 1 second after the epoch. -/
def jwksC9 : JwksStateM := ⟨"https://jwks.example/keys", [], none, none, 1000000⟩

/-- Validator for C9's witness. -/
def vC9 : ValidatorR := ⟨⟨jwksC9, 3600000000⟩, "authorization", none, [], []⟩

/-- The C9 witness request: header `authorization` carrying the ASCII
bytes of "a.b.c", observed at wall time 0 — before `last_refresh`. -/
theorem C9_clock_rollback_panics_witness :
    handler [("v", vC9)] "v" [("authorization", [97, 46, 98, 46, 99])] 0
        (fun _ => Except.error ()) =
      HandlerResponse.panic "time went backwards" :=
  C9_clock_rollback_panics [("v", vC9)] "v" [("authorization", [97, 46, 98, 46, 99])] 0
    (fun _ => Except.error ()) vC9 [97, 46, 98, 46, 99]
    rfl rfl (by decide) (by decide)

end JwtForwardAuth
